import Mathlib

/-!
Shallow embedding of the session-scoped credential relay implemented in
`src/index.ts` (worker entry): the Bearer-token extractor, the unauthorized
response, the Durable-Object session actor (`MyMCP.fetch` internal
`/store-bearer-token` handler and the `getBearerToken` closure), the relay
dispatcher `storeBearerTokenInDO`, and the default-export gateway `fetch`.
Strings, headers and the actor storage map are modelled explicitly; the
Durable-Object host (actor addressing by name, unique-id generation) is an
external collaborator and is modelled as a name-indexed family of actor
states plus a counter for `newUniqueId`.
-/

set_option autoImplicit false

namespace CredentialRelay

/-- ECMAScript `\s` (WhiteSpace ∪ LineTerminator), the class used by the
source regex `/^Bearer\s+(.+)$/i`. -/
def jsWs (c : Char) : Bool :=
  c = ' ' || c = '\t' || c = '\n' || c = '\x0b' || c = '\x0c' || c = '\r' ||
  c.toNat = 0xa0 || c.toNat = 0x1680 ||
  (0x2000 ≤ c.toNat && c.toNat ≤ 0x200a) ||
  c.toNat = 0x2028 || c.toNat = 0x2029 || c.toNat = 0x202f ||
  c.toNat = 0x205f || c.toNat = 0x3000 || c.toNat = 0xfeff

/-- ECMAScript line terminators, excluded by `.` when the `s` flag is off. -/
def lineTerminator (c : Char) : Bool :=
  c = '\n' || c = '\r' || c.toNat = 0x2028 || c.toNat = 0x2029

/-- What `.` matches in the source regex (any char except a line terminator). -/
def jsDot (c : Char) : Bool := !(lineTerminator c)

/-- Match of the case-insensitive literal `Bearer` at the start of the
header (the `^Bearer` part of the regex, under the `i` flag); returns the
remaining characters on success. -/
def matchBearerLit : List Char → Option (List Char)
  | b :: e :: a :: r :: e' :: r' :: rest =>
    if b.toLower = 'b' ∧ e.toLower = 'e' ∧ a.toLower = 'a' ∧
       r.toLower = 'r' ∧ e'.toLower = 'e' ∧ r'.toLower = 'r'
    then some rest else none
  | _ => none

/-- Split off the maximal `\s` prefix (the greedy first pass of `\s+`). -/
def takeWsSplit : List Char → List Char × List Char
  | [] => ([], [])
  | c :: cs =>
    if jsWs c then
      let p := takeWsSplit cs
      (c :: p.1, p.2)
    else ([], c :: cs)

/-- Whether a candidate capture satisfies `(.+)$`: nonempty and free of
line terminators. -/
def validCapture (t : List Char) : Bool := !t.isEmpty && t.all jsDot

/-- Backtracking tail of the regex match: `wRev` is the whitespace consumed
by `\s+` so far (reversed), `t` the candidate capture for `(.+)$`.  Greedy
`\s+` keeps all of `wRev` when the capture is valid, otherwise gives
characters back one at a time, but must keep at least one. -/
def backtrackCapture : List Char → List Char → Option (List Char)
  | [], _ => none
  | [_], t => if validCapture t then some t else none
  | c :: c' :: wRev, t =>
    if validCapture t then some t
    else backtrackCapture (c' :: wRev) (c :: t)

/-- Match of `\s+(.+)$` against the characters after `Bearer`, returning
the capture group. -/
def matchWsCapture (r : List Char) : Option (List Char) :=
  let p := takeWsSplit r
  backtrackCapture p.1.reverse p.2

/-- `extractBearerToken` (src/index.ts): reads the `Authorization` header
(`none` models an absent header) and applies `/^Bearer\s+(.+)$/i`,
returning the capture, else `null` (`none`). -/
def extractBearerToken (authHeader : Option String) : Option String :=
  match authHeader with
  | none => none
  | some s =>
    match matchBearerLit s.data with
    | none => none
    | some rest => (matchWsCapture rest).map fun t => String.mk t

/-- The observable parts of an HTTP response constructed by the worker. -/
structure HttpResponse where
  status : Nat
  body : String
  contentType : Option String
  wwwAuthenticate : Option String
deriving DecidableEq

/-- `createUnauthorizedResponse` (src/index.ts): 401 with a JSON body and a
`WWW-Authenticate: Bearer` header. -/
def createUnauthorizedResponse : HttpResponse :=
  ⟨401,
   "\x7b\"error\":\"Unauthorized\",\"message\":\"Valid Bearer token required\"\x7d",
   some "application/json",
   some "Bearer"⟩

/-- Persistent storage of one Durable-Object session actor
(`this.ctx.storage`): a key-value map from storage keys to strings. -/
structure ActorState where
  storage : String → Option String

/-- A freshly created actor: nothing stored yet. -/
def ActorState.initial : ActorState := ⟨fun _ => none⟩

/-- `this.ctx.storage.put(k, v)`. -/
def ActorState.put (st : ActorState) (k v : String) : ActorState :=
  ⟨fun k' => if k' = k then some v else st.storage k'⟩

inductive HttpMethod where
  | GET
  | POST
deriving DecidableEq

/-- A request as seen by the Durable Object's `fetch`: its path, method,
and the `token` field of its JSON body (`none` when the body does not
parse to an object with a `token`, in which case `request.json()` in the
handler throws and the catch branch answers 500). -/
structure DORequest where
  pathname : String
  method : HttpMethod
  jsonToken : Option String

/-- Outcome of the Durable Object's `fetch`: either a response built by the
`/store-bearer-token` branch, or delegation to `super.fetch` (the MCP SDK,
an external collaborator). -/
inductive DOResult where
  | response (resp : HttpResponse)
  | delegated
deriving DecidableEq

/-- `MyMCP.fetch` (src/index.ts): the internal `/store-bearer-token` POST
handler writes the token under the storage key `"bearerToken"` and answers
200; a body that fails to parse answers 500; every other request goes to
`super.fetch`. -/
def MyMCP.fetch (st : ActorState) (req : DORequest) : ActorState × DOResult :=
  if req.pathname = "/store-bearer-token" ∧ req.method = HttpMethod.POST then
    match req.jsonToken with
    | some token =>
      (st.put "bearerToken" token, DOResult.response ⟨200, "Token stored", none, none⟩)
    | none =>
      (st, DOResult.response ⟨500, "Failed to store token", none, none⟩)
  else
    (st, DOResult.delegated)

/-- The `getBearerToken` closure registered with the tools (src/index.ts):
`await this.ctx.storage.get("bearerToken")` followed by `token || null`,
so an empty stored string is reported as absent. -/
def getBearerToken (st : ActorState) : Option String :=
  match st.storage "bearerToken" with
  | none => none
  | some token => if token = "" then none else some token

/-- The two endpoint types distinguished by `storeBearerTokenInDO`'s
`endpointType` argument. -/
inductive EndpointType where
  | sse
  | mcp
deriving DecidableEq

/-- `const doPrefix = endpointType === "sse" ? "sse" : "streamable-http"`. -/
def doPrefixOf : EndpointType → String
  | EndpointType.sse => "sse"
  | EndpointType.mcp => "streamable-http"

/-- The actor name passed to `env.MCP_OBJECT.idFromName`:
`` `${doPrefix}:${sessionId}` ``. -/
def actorName (endpointType : EndpointType) (sessionId : String) : String :=
  doPrefixOf endpointType ++ ":" ++ sessionId

/-- Global state of the Durable-Object host: the actor addressed by each
name (`idFromName` maps equal names to the same actor, lazily created, so a
total family of actor states is the faithful picture), plus a counter
modelling the host's `newUniqueId` generator. -/
structure SystemState where
  actors : String → ActorState
  nextUniqueId : Nat

/-- A system in which no actor has stored anything. -/
def SystemState.initial : SystemState := ⟨fun _ => ActorState.initial, 0⟩

/-- `env.MCP_OBJECT.newUniqueId().toString()`: host-generated globally
unique id, modelled from the counter. -/
def newUniqueIdString (n : Nat) : String := "unique-" ++ toString n

/-- `storeBearerTokenInDO` (src/index.ts): computes the namespaced actor
name, obtains the stub for that actor, and POSTs the token to the actor's
internal `/store-bearer-token` endpoint; the response is not inspected. -/
def storeBearerTokenInDO (st : SystemState) (sessionId token : String)
    (endpointType : EndpointType) : SystemState :=
  let name := actorName endpointType sessionId
  let r := MyMCP.fetch (st.actors name) ⟨"/store-bearer-token", HttpMethod.POST, some token⟩
  ⟨fun n => if n = name then r.1 else st.actors n, st.nextUniqueId⟩

/-- An inbound request as seen by the worker's default-export `fetch`:
path, `Authorization` header, the `sessionId` query parameter, and the
`mcp-session-id` header (each `none` when absent). -/
structure GatewayRequest where
  pathname : String
  authorization : Option String
  sessionIdParam : Option String
  mcpSessionId : Option String

/-- The connection-style handler a request is handed to (`MyMCP.serveSSE`
or `MyMCP.serve`, external collaborators). -/
inductive Handler where
  | sse
  | mcp
deriving DecidableEq

/-- What the gateway returns: a response it built itself, or a handoff to a
connection-style handler. -/
inductive GatewayResult where
  | response (resp : HttpResponse)
  | handoff (h : Handler)
deriving DecidableEq

/-- One gateway invocation's observable effect: the post-state, the result,
the actor name a store was completed to (if any), and whether a fresh
session id was allocated. -/
structure GatewayStep where
  state : SystemState
  result : GatewayResult
  storedTo : Option String
  allocatedFresh : Bool

/-- Session-id resolution of the gateway (src/index.ts, inside the
recognized-route branch): `/sse` reads the `sessionId` query parameter,
`/mcp` reads the `mcp-session-id` header; the source's `if (!sessionId)`
falsiness check generates a fresh unique id both when the parameter/header
is absent (`null` from `get`) and when it is present but empty (`""` is
falsy in JS); `/sse/message` resolves no session id.  Returns the resolved
id, the (possibly counter-advanced) state, and whether a fresh id was
allocated. -/
def resolveSessionId (req : GatewayRequest) (st : SystemState) :
    Option String × SystemState × Bool :=
  if req.pathname = "/sse" then
    match req.sessionIdParam with
    | some sid =>
      if sid = "" then
        (some (newUniqueIdString st.nextUniqueId), ⟨st.actors, st.nextUniqueId + 1⟩, true)
      else (some sid, st, false)
    | none => (some (newUniqueIdString st.nextUniqueId), ⟨st.actors, st.nextUniqueId + 1⟩, true)
  else if req.pathname = "/mcp" then
    match req.mcpSessionId with
    | some sid =>
      if sid = "" then
        (some (newUniqueIdString st.nextUniqueId), ⟨st.actors, st.nextUniqueId + 1⟩, true)
      else (some sid, st, false)
    | none => (some (newUniqueIdString st.nextUniqueId), ⟨st.actors, st.nextUniqueId + 1⟩, true)
  else (none, st, false)

/-- The worker's default-export `fetch` (src/index.ts).  `relayFails`
models whether the awaited `doStub.fetch` inside `storeBearerTokenInDO`
throws (the only way the try/catch around the store can fail); on failure
the store is not applied and the gateway answers 500 without handing off. -/
def Gateway.fetch (req : GatewayRequest) (st : SystemState) (relayFails : Bool) : GatewayStep :=
  let token := extractBearerToken req.authorization
  if req.pathname = "/sse" ∨ req.pathname = "/sse/message" ∨ req.pathname = "/mcp" then
    match token with
    | none => ⟨st, GatewayResult.response createUnauthorizedResponse, none, false⟩
    | some tok =>
      let resolved := resolveSessionId req st
      match resolved.1 with
      | some sessionId =>
        let endpointType := if req.pathname = "/sse" then EndpointType.sse else EndpointType.mcp
        if relayFails then
          ⟨resolved.2.1, GatewayResult.response ⟨500, "Internal server error", none, none⟩,
           none, resolved.2.2⟩
        else
          let st2 := storeBearerTokenInDO resolved.2.1 sessionId tok endpointType
          if req.pathname = "/sse" ∨ req.pathname = "/sse/message" then
            ⟨st2, GatewayResult.handoff Handler.sse,
             some (actorName endpointType sessionId), resolved.2.2⟩
          else if req.pathname = "/mcp" then
            ⟨st2, GatewayResult.handoff Handler.mcp,
             some (actorName endpointType sessionId), resolved.2.2⟩
          else
            ⟨st2, GatewayResult.response ⟨404, "Not found", none, none⟩,
             some (actorName endpointType sessionId), resolved.2.2⟩
      | none =>
        if req.pathname = "/sse" ∨ req.pathname = "/sse/message" then
          ⟨st, GatewayResult.handoff Handler.sse, none, false⟩
        else if req.pathname = "/mcp" then
          ⟨st, GatewayResult.handoff Handler.mcp, none, false⟩
        else
          ⟨st, GatewayResult.response ⟨404, "Not found", none, none⟩, none, false⟩
  else
    ⟨st, GatewayResult.response ⟨404, "Not found", none, none⟩, none, false⟩

/-- The internal store request dispatched by `storeBearerTokenInDO`. -/
def storeReq (token : String) : DORequest :=
  ⟨"/store-bearer-token", HttpMethod.POST, some token⟩

/-- Spec-side reading of the `^Bearer` part under the `i` flag: a block of
characters that lower-cases to the word `bearer`. -/
def foldsToBearer (p : List Char) : Prop :=
  p.map Char.toLower = ['b', 'e', 'a', 'r', 'e', 'r']

theorem backtrackCapture_sound : ∀ (wRev t res : List Char),
    backtrackCapture wRev t = some res →
    validCapture res = true ∧
    ∃ used, used ≠ [] ∧ (∀ c ∈ used, c ∈ wRev) ∧ wRev.reverse ++ t = used ++ res := by
  intro wRev
  induction wRev with
  | nil => intro t res h; simp [backtrackCapture] at h
  | cons c wRev' ih =>
    intro t res h
    cases wRev' with
    | nil =>
      by_cases hv : validCapture t = true
      · rw [backtrackCapture, if_pos hv] at h
        cases h
        exact ⟨hv, [c], by simp, by simp, by simp⟩
      · rw [backtrackCapture, if_neg hv] at h
        cases h
    | cons c' rest =>
      by_cases hv : validCapture t = true
      · rw [backtrackCapture, if_pos hv] at h
        cases h
        refine ⟨hv, (c :: c' :: rest).reverse, by simp, ?_, by simp⟩
        intro x hx
        simp only [List.mem_reverse] at hx
        exact hx
      · rw [backtrackCapture, if_neg hv] at h
        obtain ⟨hval, used, hne, hmem, heq⟩ := ih (c :: t) res h
        refine ⟨hval, used, hne, fun x hx => List.mem_cons_of_mem c (hmem x hx), ?_⟩
        simpa [List.append_assoc] using heq

theorem backtrackCapture_isSome : ∀ (wRev t : List Char),
    (∃ j, j < wRev.length ∧ validCapture ((wRev.take j).reverse ++ t) = true) →
    (backtrackCapture wRev t).isSome = true := by
  intro wRev
  induction wRev with
  | nil =>
    rintro t ⟨j, hj, _⟩
    simp at hj
  | cons c wRev' ih =>
    rintro t ⟨j, hj, hval⟩
    cases wRev' with
    | nil =>
      have hj0 : j = 0 := by simpa using Nat.lt_one_iff.mp (by simpa using hj)
      subst hj0
      simp only [List.take_zero, List.reverse_nil, List.nil_append] at hval
      rw [backtrackCapture, if_pos hval]
      rfl
    | cons c' rest =>
      by_cases hv : validCapture t = true
      · rw [backtrackCapture, if_pos hv]
        rfl
      · have hj0 : j ≠ 0 := by
          intro h0
          subst h0
          simp only [List.take_zero, List.reverse_nil, List.nil_append] at hval
          exact hv hval
        obtain ⟨j', rfl⟩ : ∃ j', j = j' + 1 := ⟨j - 1, by omega⟩
        rw [backtrackCapture, if_neg hv]
        refine ih (c :: t) ⟨j', ?_, ?_⟩
        · simp only [List.length_cons] at hj ⊢
          omega
        · simpa [List.append_assoc] using hval

theorem takeWsSplit_spec : ∀ r : List Char,
    r = (takeWsSplit r).1 ++ (takeWsSplit r).2 ∧ ∀ c ∈ (takeWsSplit r).1, jsWs c = true := by
  intro r
  induction r with
  | nil => simp [takeWsSplit]
  | cons c cs ih =>
    by_cases hw : jsWs c = true
    · refine ⟨?_, ?_⟩
      · simpa [takeWsSplit, hw] using ih.1
      · intro x hx
        simp only [takeWsSplit, hw, if_pos] at hx
        rcases List.mem_cons.mp hx with h | h
        · subst h; exact hw
        · exact ih.2 x h
    · simp [takeWsSplit, hw]

theorem takeWsSplit_ws_append : ∀ (w r : List Char), (∀ c ∈ w, jsWs c = true) →
    takeWsSplit (w ++ r) = (w ++ (takeWsSplit r).1, (takeWsSplit r).2) := by
  intro w
  induction w with
  | nil => intro r _; simp
  | cons c w' ih =>
    intro r hw
    have hc : jsWs c = true := hw c (by simp)
    have hrec := ih r (fun x hx => hw x (by simp [hx]))
    simp [takeWsSplit, hc, hrec]

theorem matchBearerLit_sound : ∀ (l rest : List Char), matchBearerLit l = some rest →
    ∃ p, foldsToBearer p ∧ l = p ++ rest := by
  intro l rest h
  rcases l with _ | ⟨b, _ | ⟨e, _ | ⟨a, _ | ⟨r, _ | ⟨e', _ | ⟨r', l'⟩⟩⟩⟩⟩⟩ <;>
    simp only [matchBearerLit] at h
  · cases h
  · cases h
  · cases h
  · cases h
  · cases h
  · cases h
  · split at h
    · rename_i hcond
      cases h
      exact ⟨[b, e, a, r, e', r'],
        by simp [foldsToBearer, hcond.1, hcond.2.1, hcond.2.2.1, hcond.2.2.2.1,
                 hcond.2.2.2.2.1, hcond.2.2.2.2.2], by simp⟩
    · cases h

theorem matchBearerLit_complete : ∀ (p rest : List Char), foldsToBearer p →
    matchBearerLit (p ++ rest) = some rest := by
  intro p rest hp
  rcases p with _ | ⟨b, _ | ⟨e, _ | ⟨a, _ | ⟨r, _ | ⟨e', _ | ⟨r', p'⟩⟩⟩⟩⟩⟩ <;>
    simp [foldsToBearer, List.cons.injEq, List.map_eq_nil_iff] at hp
  obtain ⟨h1, h2, h3, h4, h5, h6, h7⟩ := hp
  subst h7
  simp only [List.nil_append, List.cons_append, matchBearerLit]
  rw [if_pos ⟨h1, h2, h3, h4, h5, h6⟩]

theorem extractBearerToken_sound (s t : String)
    (h : extractBearerToken (some s) = some t) :
    t.data ≠ [] ∧ t.data.all jsDot = true ∧
    ∃ p w, foldsToBearer p ∧ w ≠ [] ∧ (∀ c ∈ w, jsWs c = true) ∧
      s.data = p ++ w ++ t.data := by
  simp only [extractBearerToken] at h
  rcases hm : matchBearerLit s.data with _ | rest
  · rw [hm] at h; cases h
  · rw [hm] at h
    simp only [Option.map_eq_some'] at h
    obtain ⟨res, hres, hmk⟩ := h
    obtain ⟨p, hp, hsplit⟩ := matchBearerLit_sound s.data rest hm
    simp only [matchWsCapture] at hres
    obtain ⟨hval, used, hne, hmem, heq⟩ :=
      backtrackCapture_sound (takeWsSplit rest).1.reverse (takeWsSplit rest).2 res hres
    have hws := takeWsSplit_spec rest
    have hdata : t.data = res := by rw [← hmk]
    have hvres : res ≠ [] ∧ res.all jsDot = true := by
      simp only [validCapture, Bool.and_eq_true, Bool.not_eq_true'] at hval
      exact ⟨fun hn => by simp [hn] at hval, hval.2⟩
    refine ⟨by rw [hdata]; exact hvres.1, by rw [hdata]; exact hvres.2, p, used, hp, hne, ?_, ?_⟩
    · intro c hc
      exact hws.2 c (by simpa using hmem c hc)
    · rw [hdata, hsplit, hws.1]
      have : (takeWsSplit rest).1.reverse.reverse ++ (takeWsSplit rest).2 = used ++ res := heq
      simp only [List.reverse_reverse] at this
      rw [List.append_assoc, this]

theorem extractBearerToken_isSome (s : String)
    (h : ∃ p w t, foldsToBearer p ∧ w ≠ [] ∧ (∀ c ∈ w, jsWs c = true) ∧
      t ≠ [] ∧ (∀ c ∈ t, jsDot c = true) ∧ s.data = p ++ w ++ t) :
    ∃ t', extractBearerToken (some s) = some t' := by
  obtain ⟨p, w, t, hp, hwne, hw, htne, ht, hsplit⟩ := h
  have hm : matchBearerLit s.data = some (w ++ t) := by
    rw [hsplit, List.append_assoc]
    exact matchBearerLit_complete p (w ++ t) hp
  have hws := takeWsSplit_ws_append w t hw
  have htspec := takeWsSplit_spec t
  have hsome : (backtrackCapture (takeWsSplit (w ++ t)).1.reverse
      (takeWsSplit (w ++ t)).2).isSome = true := by
    rw [hws]
    refine backtrackCapture_isSome (w ++ (takeWsSplit t).1).reverse (takeWsSplit t).2
      ⟨(takeWsSplit t).1.length, ?_, ?_⟩
    · simp only [List.length_reverse, List.length_append]
      have : w.length ≠ 0 := fun h0 => hwne (List.eq_nil_of_length_eq_zero h0)
      omega
    · have htake : ((w ++ (takeWsSplit t).1).reverse.take (takeWsSplit t).1.length)
          = (takeWsSplit t).1.reverse := by
        rw [List.reverse_append]
        have : (takeWsSplit t).1.reverse.length = (takeWsSplit t).1.length := by
          simp
        rw [← this, List.take_left]
      rw [htake, List.reverse_reverse, ← htspec.1]
      simp only [validCapture, Bool.and_eq_true, Bool.not_eq_true']
      refine ⟨by simpa [List.isEmpty_iff] using htne, by simpa [List.all_eq_true] using ht⟩
  rcases hres : backtrackCapture (takeWsSplit (w ++ t)).1.reverse (takeWsSplit (w ++ t)).2
      with _ | res
  · rw [hres] at hsome; cases hsome
  · exact ⟨String.mk res, by simp [extractBearerToken, hm, matchWsCapture, hres]⟩

theorem extractBearerToken_ne_empty (h : Option String) (t : String)
    (he : extractBearerToken h = some t) : t ≠ "" := by
  cases h with
  | none => cases he
  | some s =>
    intro h0
    have := (extractBearerToken_sound s t he).1
    rw [h0] at this
    exact this rfl

theorem put_storage_same (st : ActorState) (k v : String) :
    (st.put k v).storage k = some v := by
  simp [ActorState.put]

theorem put_storage_other (st : ActorState) (k k' v : String) (h : k' ≠ k) :
    (st.put k v).storage k' = st.storage k' := by
  simp [ActorState.put, h]

theorem getBearerToken_put (st : ActorState) (v : String) (hv : v ≠ "") :
    getBearerToken (st.put "bearerToken" v) = some v := by
  simp [getBearerToken, ActorState.put, hv]

theorem store_actors_same (st : SystemState) (sid tok : String) (e : EndpointType) :
    (storeBearerTokenInDO st sid tok e).actors (actorName e sid)
      = (st.actors (actorName e sid)).put "bearerToken" tok := by
  simp [storeBearerTokenInDO, MyMCP.fetch, storeReq]

theorem store_actors_other (st : SystemState) (sid tok : String) (e : EndpointType)
    (n : String) (h : n ≠ actorName e sid) :
    (storeBearerTokenInDO st sid tok e).actors n = st.actors n := by
  simp [storeBearerTokenInDO, MyMCP.fetch, h]

theorem actorName_sse_ne_mcp (S : String) :
    actorName EndpointType.sse S ≠ actorName EndpointType.mcp S := by
  intro h
  have h2 := congrArg String.length h
  have e1 : ("sse" : String).length = 3 := rfl
  have e2 : ("streamable-http" : String).length = 15 := rfl
  have e3 : (":" : String).length = 1 := rfl
  simp only [actorName, doPrefixOf, String.length_append, e1, e2, e3] at h2
  omega

theorem gateway_sse_given (st : SystemState) (sid : String) (auth : Option String)
    (msid : Option String) (tok : String) (htok : extractBearerToken auth = some tok)
    (hsid : sid ≠ "") :
    Gateway.fetch ⟨"/sse", auth, some sid, msid⟩ st false
      = ⟨storeBearerTokenInDO st sid tok EndpointType.sse, GatewayResult.handoff Handler.sse,
         some (actorName EndpointType.sse sid), false⟩ := by
  simp [Gateway.fetch, resolveSessionId, htok, hsid]

theorem gateway_sse_empty (st : SystemState) (auth : Option String)
    (msid : Option String) (tok : String) (htok : extractBearerToken auth = some tok) :
    Gateway.fetch ⟨"/sse", auth, some "", msid⟩ st false
      = ⟨storeBearerTokenInDO ⟨st.actors, st.nextUniqueId + 1⟩
           (newUniqueIdString st.nextUniqueId) tok EndpointType.sse,
         GatewayResult.handoff Handler.sse,
         some (actorName EndpointType.sse (newUniqueIdString st.nextUniqueId)), true⟩ := by
  simp [Gateway.fetch, resolveSessionId, htok]

theorem gateway_sse_fresh (st : SystemState) (auth : Option String)
    (msid : Option String) (tok : String) (htok : extractBearerToken auth = some tok) :
    Gateway.fetch ⟨"/sse", auth, none, msid⟩ st false
      = ⟨storeBearerTokenInDO ⟨st.actors, st.nextUniqueId + 1⟩
           (newUniqueIdString st.nextUniqueId) tok EndpointType.sse,
         GatewayResult.handoff Handler.sse,
         some (actorName EndpointType.sse (newUniqueIdString st.nextUniqueId)), true⟩ := by
  simp [Gateway.fetch, resolveSessionId, htok]

theorem gateway_mcp_given (st : SystemState) (sid : String) (auth : Option String)
    (sidp : Option String) (tok : String) (htok : extractBearerToken auth = some tok)
    (hsid : sid ≠ "") :
    Gateway.fetch ⟨"/mcp", auth, sidp, some sid⟩ st false
      = ⟨storeBearerTokenInDO st sid tok EndpointType.mcp, GatewayResult.handoff Handler.mcp,
         some (actorName EndpointType.mcp sid), false⟩ := by
  simp [Gateway.fetch, resolveSessionId, htok, hsid]

theorem gateway_mcp_empty (st : SystemState) (auth : Option String)
    (sidp : Option String) (tok : String) (htok : extractBearerToken auth = some tok) :
    Gateway.fetch ⟨"/mcp", auth, sidp, some ""⟩ st false
      = ⟨storeBearerTokenInDO ⟨st.actors, st.nextUniqueId + 1⟩
           (newUniqueIdString st.nextUniqueId) tok EndpointType.mcp,
         GatewayResult.handoff Handler.mcp,
         some (actorName EndpointType.mcp (newUniqueIdString st.nextUniqueId)), true⟩ := by
  simp [Gateway.fetch, resolveSessionId, htok]

theorem gateway_mcp_fresh (st : SystemState) (auth : Option String)
    (sidp : Option String) (tok : String) (htok : extractBearerToken auth = some tok) :
    Gateway.fetch ⟨"/mcp", auth, sidp, none⟩ st false
      = ⟨storeBearerTokenInDO ⟨st.actors, st.nextUniqueId + 1⟩
           (newUniqueIdString st.nextUniqueId) tok EndpointType.mcp,
         GatewayResult.handoff Handler.mcp,
         some (actorName EndpointType.mcp (newUniqueIdString st.nextUniqueId)), true⟩ := by
  simp [Gateway.fetch, resolveSessionId, htok]

/-- Claim C1: for every raw session key string `S`, the actor address for
the streamed style (prefix `sse:`) and the actor address for the direct
style (prefix `streamable-http:`) are distinct, and a credential relayed
through either style leaves the other style's actor credential for `S`
untouched. -/
theorem C1_namespace_isolation (S tok : String) (st : SystemState) :
    actorName EndpointType.sse S ≠ actorName EndpointType.mcp S ∧
    getBearerToken ((storeBearerTokenInDO st S tok EndpointType.sse).actors
        (actorName EndpointType.mcp S))
      = getBearerToken (st.actors (actorName EndpointType.mcp S)) ∧
    getBearerToken ((storeBearerTokenInDO st S tok EndpointType.mcp).actors
        (actorName EndpointType.sse S))
      = getBearerToken (st.actors (actorName EndpointType.sse S)) := by
  refine ⟨actorName_sse_ne_mcp S, ?_, ?_⟩
  · rw [store_actors_other st S tok EndpointType.sse _ (Ne.symm (actorName_sse_ne_mcp S))]
  · rw [store_actors_other st S tok EndpointType.mcp _ (actorName_sse_ne_mcp S)]

/-- Claim C2: for every request to a session-resolving entry route (`/sse`
or `/mcp`) carrying an extractable bearer token, the gateway completes the
store into the resolved session's actor and only then hands off; the result
is a handoff and the stored token is what `getBearerToken` reads from that
actor in the post-handoff state. -/
theorem C2_happens_before (req : GatewayRequest) (st : SystemState) (tok : String)
    (hpath : req.pathname = "/sse" ∨ req.pathname = "/mcp")
    (htok : extractBearerToken req.authorization = some tok) :
    ∃ h name,
      (Gateway.fetch req st false).result = GatewayResult.handoff h ∧
      (Gateway.fetch req st false).storedTo = some name ∧
      getBearerToken ((Gateway.fetch req st false).state.actors name) = some tok := by
  have hne : tok ≠ "" := extractBearerToken_ne_empty req.authorization tok htok
  obtain ⟨path, auth, sidp, msid⟩ := req
  rcases hpath with hp | hp
  · have hp2 : path = "/sse" := hp
    subst hp2
    cases sidp with
    | some sid =>
      by_cases hsid : sid = ""
      · subst hsid
        rw [gateway_sse_empty st auth msid tok htok]
        exact ⟨Handler.sse, actorName EndpointType.sse (newUniqueIdString st.nextUniqueId),
          rfl, rfl, by rw [store_actors_same]; exact getBearerToken_put _ _ hne⟩
      · rw [gateway_sse_given st sid auth msid tok htok hsid]
        exact ⟨Handler.sse, actorName EndpointType.sse sid, rfl, rfl,
          by rw [store_actors_same]; exact getBearerToken_put _ _ hne⟩
    | none =>
      rw [gateway_sse_fresh st auth msid tok htok]
      exact ⟨Handler.sse, actorName EndpointType.sse (newUniqueIdString st.nextUniqueId),
        rfl, rfl, by rw [store_actors_same]; exact getBearerToken_put _ _ hne⟩
  · have hp2 : path = "/mcp" := hp
    subst hp2
    cases msid with
    | some sid =>
      by_cases hsid : sid = ""
      · subst hsid
        rw [gateway_mcp_empty st auth sidp tok htok]
        exact ⟨Handler.mcp, actorName EndpointType.mcp (newUniqueIdString st.nextUniqueId),
          rfl, rfl, by rw [store_actors_same]; exact getBearerToken_put _ _ hne⟩
      · rw [gateway_mcp_given st sid auth sidp tok htok hsid]
        exact ⟨Handler.mcp, actorName EndpointType.mcp sid, rfl, rfl,
          by rw [store_actors_same]; exact getBearerToken_put _ _ hne⟩
    | none =>
      rw [gateway_mcp_fresh st auth sidp tok htok]
      exact ⟨Handler.mcp, actorName EndpointType.mcp (newUniqueIdString st.nextUniqueId),
        rfl, rfl, by rw [store_actors_same]; exact getBearerToken_put _ _ hne⟩

theorem C2_witness :
    ∃ h name,
      (Gateway.fetch ⟨"/sse", some "Bearer tok-123", some "K", none⟩
          SystemState.initial false).result = GatewayResult.handoff h ∧
      (Gateway.fetch ⟨"/sse", some "Bearer tok-123", some "K", none⟩
          SystemState.initial false).storedTo = some name ∧
      getBearerToken ((Gateway.fetch ⟨"/sse", some "Bearer tok-123", some "K", none⟩
          SystemState.initial false).state.actors name) = some "tok-123" :=
  C2_happens_before ⟨"/sse", some "Bearer tok-123", some "K", none⟩ SystemState.initial
    "tok-123" (Or.inl rfl) (by decide)

/-- Claim C3 (counterexample): the claim quantifies over every token `T`,
but at `T = ""` the code's `token || null` coercion makes `getBearerToken`
report absence after the store, not the stored token. -/
theorem C3_counterexample :
    getBearerToken (MyMCP.fetch (MyMCP.fetch ActorState.initial (storeReq "")).1
        (storeReq "")).1 ≠ some "" := by decide

/-- Claim C3 (amended): for every session actor state and every nonempty
token `T`, performing the store twice in a row leaves `getBearerToken`
returning exactly `T`, the same as performing it once. -/
theorem C3_idempotent_store (a : ActorState) (T : String) (hT : T ≠ "") :
    getBearerToken (MyMCP.fetch (MyMCP.fetch a (storeReq T)).1 (storeReq T)).1 = some T ∧
    getBearerToken (MyMCP.fetch (MyMCP.fetch a (storeReq T)).1 (storeReq T)).1
      = getBearerToken (MyMCP.fetch a (storeReq T)).1 := by
  have h1 : ∀ b : ActorState, (MyMCP.fetch b (storeReq T)).1 = b.put "bearerToken" T := by
    intro b
    simp [MyMCP.fetch, storeReq]
  rw [h1, h1]
  rw [getBearerToken_put _ _ hT, getBearerToken_put _ _ hT]
  exact ⟨rfl, rfl⟩

theorem C3_witness :
    getBearerToken (MyMCP.fetch (MyMCP.fetch ActorState.initial (storeReq "tok-abc")).1
        (storeReq "tok-abc")).1 = some "tok-abc" :=
  (C3_idempotent_store ActorState.initial "tok-abc" (by decide)).1

/-- Claim C4 (counterexample): the claim quantifies over every header
value `S1`, but at `S1 = ""` the source's `if (!sessionId)` falsiness check
treats the empty header as absent, allocates a fresh unique id per request,
and never targets the direct-namespaced actor for `""`: the first relay
does not go to that actor and retrieval from it yields nothing. -/
theorem C4_counterexample :
    (Gateway.fetch ⟨"/mcp", some "Bearer tok-abc", none, some ""⟩
        SystemState.initial false).storedTo ≠ some (actorName EndpointType.mcp "") ∧
    getBearerToken ((Gateway.fetch ⟨"/mcp", some "Bearer tok-xyz", none, some ""⟩
        (Gateway.fetch ⟨"/mcp", some "Bearer tok-abc", none, some ""⟩
          SystemState.initial false).state
        false).state.actors (actorName EndpointType.mcp ""))
      ≠ some "tok-xyz" := by decide

/-- Claim C4 (amended): for every nonempty session id `S1`, a direct-call
request with `mcp-session-id: S1` and token `tok-abc` relays to the
direct-namespaced actor for `S1`; a second direct-call request for the same
`S1` with token `tok-xyz` relays to the same actor, and retrieval
afterwards returns `tok-xyz`. -/
theorem C4_last_write_wins (S1 : String) (st : SystemState) (hS1 : S1 ≠ "") :
    (Gateway.fetch ⟨"/mcp", some "Bearer tok-abc", none, some S1⟩ st false).storedTo
        = some (actorName EndpointType.mcp S1) ∧
    (Gateway.fetch ⟨"/mcp", some "Bearer tok-xyz", none, some S1⟩
        (Gateway.fetch ⟨"/mcp", some "Bearer tok-abc", none, some S1⟩ st false).state
        false).storedTo = some (actorName EndpointType.mcp S1) ∧
    getBearerToken ((Gateway.fetch ⟨"/mcp", some "Bearer tok-xyz", none, some S1⟩
        (Gateway.fetch ⟨"/mcp", some "Bearer tok-abc", none, some S1⟩ st false).state
        false).state.actors (actorName EndpointType.mcp S1)) = some "tok-xyz" := by
  have e1 : extractBearerToken (some "Bearer tok-abc") = some "tok-abc" := by decide
  have e2 : extractBearerToken (some "Bearer tok-xyz") = some "tok-xyz" := by decide
  rw [gateway_mcp_given st S1 _ none "tok-abc" e1 hS1]
  rw [gateway_mcp_given _ S1 _ none "tok-xyz" e2 hS1]
  refine ⟨rfl, rfl, ?_⟩
  rw [store_actors_same]
  exact getBearerToken_put _ _ (by decide)

theorem C4_witness :
    getBearerToken ((Gateway.fetch ⟨"/mcp", some "Bearer tok-xyz", none, some "S1"⟩
        (Gateway.fetch ⟨"/mcp", some "Bearer tok-abc", none, some "S1"⟩
          SystemState.initial false).state
        false).state.actors (actorName EndpointType.mcp "S1")) = some "tok-xyz" :=
  (C4_last_write_wins "S1" SystemState.initial (by decide)).2.2

/-- Claim C5: a request to a recognized route whose `Authorization` header
yields no extractable bearer token is answered with the structured 401
response advertising `WWW-Authenticate: Bearer`, and the system state is
untouched: no session id is allocated and no store is issued. -/
theorem C5_reject_missing_credential (req : GatewayRequest) (st : SystemState) (b : Bool)
    (hpath : req.pathname = "/sse" ∨ req.pathname = "/sse/message" ∨ req.pathname = "/mcp")
    (hauth : extractBearerToken req.authorization = none) :
    Gateway.fetch req st b
      = ⟨st, GatewayResult.response createUnauthorizedResponse, none, false⟩ ∧
    createUnauthorizedResponse.status = 401 ∧
    createUnauthorizedResponse.wwwAuthenticate = some "Bearer" := by
  refine ⟨?_, rfl, rfl⟩
  simp only [Gateway.fetch]
  rw [if_pos hpath, hauth]

theorem C5_witness :
    Gateway.fetch ⟨"/sse", some "Basic xyz", none, none⟩ SystemState.initial false
      = ⟨SystemState.initial, GatewayResult.response createUnauthorizedResponse,
         none, false⟩ :=
  (C5_reject_missing_credential ⟨"/sse", some "Basic xyz", none, none⟩ SystemState.initial
    false (Or.inl rfl) (by decide)).1

/-- Claim C6: on a session-resolving entry route with a valid bearer token,
if the internal store to the Session Actor fails (the stub fetch throws),
the gateway answers 500 and does not hand off; no actor state changes. -/
theorem C6_relay_failure_surfaced (req : GatewayRequest) (st : SystemState) (tok : String)
    (hpath : req.pathname = "/sse" ∨ req.pathname = "/mcp")
    (htok : extractBearerToken req.authorization = some tok) :
    (Gateway.fetch req st true).result
        = GatewayResult.response ⟨500, "Internal server error", none, none⟩ ∧
    (∀ h, (Gateway.fetch req st true).result ≠ GatewayResult.handoff h) ∧
    (Gateway.fetch req st true).state.actors = st.actors ∧
    (Gateway.fetch req st true).storedTo = none := by
  obtain ⟨path, auth, sidp, msid⟩ := req
  rcases hpath with hp | hp
  · have hp2 : path = "/sse" := hp
    subst hp2
    cases sidp with
    | some sid =>
      by_cases hsid : sid = ""
      · simp [Gateway.fetch, resolveSessionId, htok, hsid]
      · simp [Gateway.fetch, resolveSessionId, htok, hsid]
    | none => simp [Gateway.fetch, resolveSessionId, htok]
  · have hp2 : path = "/mcp" := hp
    subst hp2
    cases msid with
    | some sid =>
      by_cases hsid : sid = ""
      · simp [Gateway.fetch, resolveSessionId, htok, hsid]
      · simp [Gateway.fetch, resolveSessionId, htok, hsid]
    | none => simp [Gateway.fetch, resolveSessionId, htok]

theorem C6_witness :
    (Gateway.fetch ⟨"/mcp", some "Bearer tok-123", none, some "S1"⟩
        SystemState.initial true).result
      = GatewayResult.response ⟨500, "Internal server error", none, none⟩ :=
  (C6_relay_failure_surfaced ⟨"/mcp", some "Bearer tok-123", none, some "S1"⟩
    SystemState.initial "tok-123" (Or.inr rfl) (by decide)).1

/-- Claim C7: `extractBearerToken` answers `none` on an absent header; a
successful extraction exhibits the header as a case-insensitive `Bearer`,
whitespace, then the returned token (nonempty and line-terminator-free);
and every header of that shape extracts successfully.  Side-effect freedom
and non-throwing are rendered by its being a total function. -/
theorem C7_credential_extractor_contract :
    extractBearerToken none = none ∧
    (∀ s t, extractBearerToken (some s) = some t →
      t.data ≠ [] ∧ t.data.all jsDot = true ∧
      ∃ p w, foldsToBearer p ∧ w ≠ [] ∧ (∀ c ∈ w, jsWs c = true) ∧
        s.data = p ++ w ++ t.data) ∧
    (∀ s, (∃ p w t, foldsToBearer p ∧ w ≠ [] ∧ (∀ c ∈ w, jsWs c = true) ∧
        t ≠ [] ∧ (∀ c ∈ t, jsDot c = true) ∧ s.data = p ++ w ++ t) →
      ∃ t', extractBearerToken (some s) = some t') :=
  ⟨rfl, extractBearerToken_sound, extractBearerToken_isSome⟩

theorem C7_witness :
    extractBearerToken none = none ∧
    (∃ t', extractBearerToken (some "Bearer abc") = some t') :=
  ⟨C7_credential_extractor_contract.1,
   C7_credential_extractor_contract.2.2 "Bearer abc"
     ⟨['B', 'e', 'a', 'r', 'e', 'r'], [' '], ['a', 'b', 'c'],
      by unfold foldsToBearer; decide, by decide,
      by decide, by decide, by decide, by decide⟩⟩

/-- Claim C8: on an actor whose storage holds no credential,
`getBearerToken` returns the explicit absent value `none`; and on no actor
whatsoever does it return an empty-string token, so absence is never
conflated with an empty credential. -/
theorem C8_absence_explicit :
    (∀ st : ActorState, st.storage "bearerToken" = none → getBearerToken st = none) ∧
    (∀ st : ActorState, getBearerToken st ≠ some "") := by
  constructor
  · intro st h
    simp [getBearerToken, h]
  · intro st h
    simp only [getBearerToken] at h
    rcases hv : st.storage "bearerToken" with _ | v
    · rw [hv] at h; cases h
    · rw [hv] at h
      by_cases he : v = ""
      · simp [he] at h
      · simp [he] at h

theorem C8_witness :
    getBearerToken ActorState.initial = none ∧ getBearerToken ActorState.initial ≠ some "" :=
  ⟨C8_absence_explicit.1 ActorState.initial rfl, C8_absence_explicit.2 ActorState.initial⟩

/-- Claim C9: every request whose path is outside the recognized routes —
including the internal `/store-bearer-token` path — is answered 404 with
the state untouched: no session id allocated, no store issued. -/
theorem C9_internal_store_unreachable (req : GatewayRequest) (st : SystemState) (b : Bool)
    (hpath : req.pathname ≠ "/sse" ∧ req.pathname ≠ "/sse/message" ∧ req.pathname ≠ "/mcp") :
    Gateway.fetch req st b
      = ⟨st, GatewayResult.response ⟨404, "Not found", none, none⟩, none, false⟩ := by
  have hnot : ¬(req.pathname = "/sse" ∨ req.pathname = "/sse/message" ∨
      req.pathname = "/mcp") := by
    rintro (h | h | h)
    · exact hpath.1 h
    · exact hpath.2.1 h
    · exact hpath.2.2 h
  simp only [Gateway.fetch]
  rw [if_neg hnot]

theorem C9_witness :
    Gateway.fetch ⟨"/store-bearer-token", some "Bearer tok-123", none, none⟩
        SystemState.initial false
      = ⟨SystemState.initial, GatewayResult.response ⟨404, "Not found", none, none⟩,
         none, false⟩ :=
  C9_internal_store_unreachable ⟨"/store-bearer-token", some "Bearer tok-123", none, none⟩
    SystemState.initial false ⟨by decide, by decide, by decide⟩

/-- Claim C10: a request to `/sse/message` carrying an extractable bearer
token resolves no session id and issues no store: the gateway hands off to
the streamed handler with the whole system state unchanged, so every
actor's stored credential is left as it was. -/
theorem C10_no_relay_on_sse_message (req : GatewayRequest) (st : SystemState) (b : Bool)
    (tok : String) (hpath : req.pathname = "/sse/message")
    (htok : extractBearerToken req.authorization = some tok) :
    Gateway.fetch req st b = ⟨st, GatewayResult.handoff Handler.sse, none, false⟩ := by
  obtain ⟨path, auth, sidp, msid⟩ := req
  have hp2 : path = "/sse/message" := hpath
  subst hp2
  simp [Gateway.fetch, resolveSessionId, htok]

theorem C10_witness :
    Gateway.fetch ⟨"/sse/message", some "Bearer tok-999", none, none⟩ SystemState.initial false
      = ⟨SystemState.initial, GatewayResult.handoff Handler.sse, none, false⟩ :=
  C10_no_relay_on_sse_message ⟨"/sse/message", some "Bearer tok-999", none, none⟩
    SystemState.initial false "tok-999" rfl (by decide)

end CredentialRelay
